import Mathlib

/-!
Verification of the `stache-tools` client library against its
natural-language specification.

The definitions below are a shallow embedding of the Python source under
`src/stache_tools/`: status codes become `Int`, JSON values become the
inductive `JVal`, exceptions become inductive outcome types, and the
stateful `last_request_id` field becomes explicit state passing.
Each definition's doc comment names the Python function it embeds.
-/

namespace Stache

/-- A JSON value, as produced by `json.loads` / `response.json()`.
Object fields are an association list (Python dict with unique keys). -/
inductive JVal where
  | jnull
  | jbool (b : Bool)
  | jnum (n : Int)
  | jstr (s : String)
  | jarr (elems : List JVal)
  | jobj (fields : List (String × JVal))

/-- Python `dict.get(key)` on a parsed-JSON dict: a JSON `null` value parses
to Python `None`, which `get` cannot distinguish from an absent key, so
`jnull` collapses to `none`. -/
def dictGet (fields : List (String × JVal)) (key : String) : Option JVal :=
  match fields.lookup key with
  | some JVal.jnull => none
  | o => o

/-- The typed exception taxonomy of `client/exceptions.py`, together with the
raw third-party exceptions that the transports' retry predicates inspect
(`httpx.ConnectError`, `httpx.TimeoutException`, `botocore ClientError`).
Messages and `request_id` payloads are irrelevant to retry classification
and are elided here; `stacheAPI` keeps its `status_code` field. -/
inductive ClientExc where
  | httpxConnectError
  | httpxTimeout
  | botoClientError (code : String)
  | stacheConnection
  | stacheAuth
  | stacheNotFound
  | stacheAPI (status : Int)
deriving DecidableEq, Repr

/-- The verb methods of both transports convert every raw transport exception
(`httpx` errors, `botocore ClientError`) into one of the four `Stache*`
exceptions before it propagates, so a failure raised by a verb call is one
of these four. -/
def isStacheFailure : ClientExc → Bool
  | .stacheConnection => true
  | .stacheAuth => true
  | .stacheNotFound => true
  | .stacheAPI _ => true
  | _ => false

/-- `retry.is_retryable_status_code`: 429 or 5xx. -/
def is_retryable_status_code (status_code : Int) : Bool :=
  status_code == 429 || (500 ≤ status_code && status_code < 600)

/-- `retry.is_retryable_api_error`: a `StacheAPIError` with retryable status. -/
def is_retryable_api_error : ClientExc → Bool
  | .stacheAPI c => is_retryable_status_code c
  | _ => false

/-- `retry.is_retryable_connection_error`: a `StacheConnectionError`. -/
def is_retryable_connection_error : ClientExc → Bool
  | .stacheConnection => true
  | _ => false

/-- `http._is_retryable_http`: raw httpx connect/timeout errors, wrapped
connection errors, or API errors with retryable status. -/
def is_retryable_http (e : ClientExc) : Bool :=
  if e = .httpxConnectError || e = .httpxTimeout then true
  else if is_retryable_connection_error e then true
  else if is_retryable_api_error e then true
  else false

/-- The tuple of boto `ClientError` codes `lambda_transport._is_retryable_lambda`
treats as retryable. -/
def LAMBDA_RETRYABLE_CODES : List String :=
  ["TooManyRequestsException", "ServiceException", "ServiceUnavailableException"]

/-- `lambda_transport._is_retryable_lambda`: wrapped connection errors, API
errors with retryable status, or a boto `ClientError` carrying a
throttling/service code. -/
def is_retryable_lambda (e : ClientExc) : Bool :=
  if is_retryable_connection_error e then true
  else if is_retryable_api_error e then true
  else
    match e with
    | .botoClientError code => LAMBDA_RETRYABLE_CODES.contains code
    | _ => false

/-- The error class chosen by `exceptions.raise_for_status` (caught statuses
only; `none` means no exception is raised). -/
inductive ErrKind where
  | auth
  | notFound
  | api (status : Int)
deriving DecidableEq, Repr

/-- `exceptions.raise_for_status`: 401/403 → auth, 404 → not-found,
other ≥ 400 → generic API error carrying the status, < 400 → no raise. -/
def raise_for_status (status_code : Int) : Option ErrKind :=
  if status_code = 401 ∨ status_code = 403 then some .auth
  else if status_code = 404 then some .notFound
  else if status_code ≥ 400 then some (.api status_code)
  else none

/-- Outcome of a transport response-handling step: either the parsed payload
is returned, or a typed error is raised (error messages elided, the
`request_id` recorded at raise time kept). `jsonDecodeFailure` is the raw
JSON error escaping `response.json()` on an unparseable success body. -/
inductive RespOutcome where
  | success (payload : JVal)
  | authError (rid : Option JVal)
  | notFoundError (rid : Option JVal)
  | apiError (status : Int) (rid : Option JVal)
  | jsonDecodeFailure

/-- The error-class skeleton of a `RespOutcome`, used to compare the two
transports' status mapping while ignoring payloads and request ids. -/
inductive OutcomeKind where
  | successK
  | authK
  | notFoundK
  | apiK (status : Int)
  | jsonK
deriving DecidableEq, Repr

/-- Project a `RespOutcome` to its error class. -/
def RespOutcome.kind : RespOutcome → OutcomeKind
  | .success _ => .successK
  | .authError _ => .authK
  | .notFoundError _ => .notFoundK
  | .apiError c _ => .apiK c
  | .jsonDecodeFailure => .jsonK

/-- Build the raised outcome from a `raise_for_status` class and the
request id extracted from the response body. -/
def outcomeOfKind (k : ErrKind) (rid : Option JVal) : RespOutcome :=
  match k with
  | .auth => .authError rid
  | .notFound => .notFoundError rid
  | .api c => .apiError c rid

/-- An `httpx.Response` as the HTTP transport observes it: the integer
status code and the result of `response.json()` (`none` when parsing
raises). The raw `response.text` only feeds error messages, which are
elided. -/
structure HttpResponse where
  status_code : Int
  jsonBody : Option JVal

/-- `HTTPTransport._extract_request_id`: parse the body; if it is a JSON
object return its `request_id` field, otherwise (non-object or parse
failure) `None`. -/
def http_extract_request_id (r : HttpResponse) : Option JVal :=
  match r.jsonBody with
  | some (JVal.jobj fields) => dictGet fields "request_id"
  | _ => none

/-- The branching tail of `HTTPTransport._handle_response` after
`_last_request_id` has been recorded: raise for status ≥ 400, else return
the parsed JSON body (`response.json()` raising when unparseable). -/
def http_response_outcome (r : HttpResponse) (rid : Option JVal) : RespOutcome :=
  if r.status_code ≥ 400 then
    match raise_for_status r.status_code with
    | some k => outcomeOfKind k rid
    | none =>
      match r.jsonBody with
      | some v => .success v
      | none => .jsonDecodeFailure
  else
    match r.jsonBody with
    | some v => .success v
    | none => .jsonDecodeFailure

/-- `HTTPTransport._handle_response`: unconditionally overwrite
`_last_request_id` with the id extracted from this response, then branch on
the status. Returns the new `_last_request_id` and the outcome. -/
def http_handle_response (r : HttpResponse) : Option JVal × RespOutcome :=
  (http_extract_request_id r, http_response_outcome r (http_extract_request_id r))

/-- The `body` field of a Lambda response payload, as
`LambdaTransport._handle_response` consumes it: `payload.get("body")` is
missing/`None`/falsy (then `or "{}"` substitutes `"{}"`), a nonempty string
that parses to a JSON value, a nonempty string that fails to parse
(`json.JSONDecodeError`), or a truthy non-string (`TypeError` in
`json.loads`). -/
inductive LambdaBodyField where
  | absent
  | emptyStr
  | jsonStr (v : JVal)
  | badStr
  | nonString

/-- A Lambda function response payload `{statusCode, body, headers}`:
`payload.get("statusCode", 200)` defaults to 200 when absent. -/
structure LambdaPayload where
  statusCode : Option Int
  body : LambdaBodyField

/-- The body-parsing prefix of `LambdaTransport._handle_response`: computes
the new `_last_request_id` and the parsed `body` value. The assignment
`self._last_request_id = body.get("request_id")` happens only under
`isinstance(body, dict)`, so a body parsing to non-dict JSON leaves the
previous value in place; the `except` branch resets it to `None`. -/
def lambda_parse_body (prev : Option JVal) (b : LambdaBodyField) : Option JVal × JVal :=
  match b with
  | .absent => (dictGet [] "request_id", .jobj [])
  | .emptyStr => (dictGet [] "request_id", .jobj [])
  | .jsonStr (JVal.jobj fields) => (dictGet fields "request_id", .jobj fields)
  | .jsonStr v => (prev, v)
  | .badStr => (none, .jobj [])
  | .nonString => (none, .jobj [])

/-- The branching tail of `LambdaTransport._handle_response` after the body
parse: raise for `statusCode ≥ 400`, else return the parsed body. -/
def lambda_response_outcome (status : Int) (rid : Option JVal) (body : JVal) :
    RespOutcome :=
  if status ≥ 400 then
    match raise_for_status status with
    | some k => outcomeOfKind k rid
    | none => .success body
  else .success body

/-- `LambdaTransport._handle_response`: parse the body and update
`_last_request_id` as in `lambda_parse_body`, then branch on
`payload.get("statusCode", 200)`. Returns the new `_last_request_id` and
the outcome. -/
def lambda_handle_response (prev : Option JVal) (p : LambdaPayload) :
    Option JVal × RespOutcome :=
  ((lambda_parse_body prev p.body).1,
    lambda_response_outcome (p.statusCode.getD 200) (lambda_parse_body prev p.body).1
      (lambda_parse_body prev p.body).2)

/-- The status-to-outcome mapping exactly as the spec sentence states it
(comparison target for the response-handling claim, written from the
spec's words, not from the source). -/
def claimedStatusKind (c : Int) : OutcomeKind :=
  if c = 401 ∨ c = 403 then .authK
  else if c = 404 then .notFoundK
  else if c ≥ 400 then .apiK c
  else .successK

/-- `RETRY_CONFIG`: `stop_after_attempt(3)`. -/
def RETRY_MAX_ATTEMPTS : Nat := 3

/-- `RETRY_CONFIG`: `wait_exponential_jitter(initial=1, ...)`. -/
def WAIT_INITIAL : ℚ := 1

/-- `RETRY_CONFIG`: `wait_exponential_jitter(..., max=10, ...)`. -/
def WAIT_MAX : ℚ := 10

/-- `RETRY_CONFIG`: `wait_exponential_jitter(..., jitter=2)`. -/
def WAIT_JITTER : ℚ := 2

/-- Modelled from the spec: the sleep computed by tenacity's
`wait_exponential_jitter` (the library itself is an external dependency,
not part of this repository) with the parameters of `RETRY_CONFIG`:
`max(0, min(initial * 2**(attempt_number - 1) + uniform(0, jitter), max))`,
the random draw passed in as `j`. -/
def wait_exponential_jitter (attemptNumber : Nat) (j : ℚ) : ℚ :=
  max 0 (min (WAIT_INITIAL * 2 ^ (attemptNumber - 1) + j) WAIT_MAX)

/-- Modelled from the spec: tenacity's retry loop as configured by
`get_retry_decorator` (tenacity is an external dependency, not part of this
repository): run attempt number `attempt`; on success return; on a failure
that is not retryable, or once no further attempts remain
(`stop_after_attempt`), re-raise the last failure (`reraise=True`);
otherwise sleep and retry. `f n` is the outcome of the `n`-th attempt;
`remaining` counts the attempts still allowed after the current one. -/
def retryExec {ε α : Type} (isRetryable : ε → Bool) (f : Nat → Except ε α) :
    Nat → Nat → Except ε α
  | attempt, 0 => f attempt
  | attempt, remaining + 1 =>
    match f attempt with
    | .ok a => .ok a
    | .error e =>
      if isRetryable e then retryExec isRetryable f (attempt + 1) remaining
      else .error e

/-- A verb call wrapped by `get_retry_decorator`: attempt numbers start at 1
and at most `RETRY_MAX_ATTEMPTS` attempts are made. -/
def retryCall {ε α : Type} (isRetryable : ε → Bool) (f : Nat → Except ε α) :
    Except ε α :=
  retryExec isRetryable f 1 (RETRY_MAX_ATTEMPTS - 1)

/-- The `except ClientError` branch of `LambdaTransport._invoke`: classify an
SDK-level invocation failure by its error code
(`e.response.get("Error", {}).get("Code", "Unknown")`) into the typed
exception that is raised. -/
def classify_client_error (code : String) : ClientExc :=
  if code = "ResourceNotFoundException" then .stacheConnection
  else if code = "AccessDeniedException" then .stacheAuth
  else if code = "TooManyRequestsException" ∨ code = "ServiceException" then .stacheAPI 503
  else .stacheConnection

/-- The per-file outcome of `cli/ingest.ingest_file`: its `status` field plus
the `chunks` count for successes (the claims only concern the aggregate
tallies, so reasons/messages are elided). -/
inductive FileOutcome where
  | success (chunks : Nat)
  | skipped
  | error
deriving DecidableEq, Repr

/-- The running tallies of the `ingest` command: `success`, `failed`,
`skipped`, `total_chunks`. -/
structure RunTally where
  success : Nat
  failed : Nat
  skipped : Nat
  totalChunks : Nat
deriving DecidableEq, Repr

/-- The result-aggregation loop shared by the sequential and parallel
branches of `cli/ingest.ingest`, applied to the per-file outcomes in
processing order (sequential: sorted file order; parallel: completion
order). Per outcome: `success` bumps `success` and `total_chunks`;
`skipped` bumps `skipped`; `error` bumps `failed` and, when `--skip-errors`
is not set, stops the run there (remaining futures are cancelled), so later
outcomes contribute nothing. -/
def runTally (skipErrors : Bool) : List FileOutcome → RunTally
  | [] => ⟨0, 0, 0, 0⟩
  | .success c :: rest =>
    let t := runTally skipErrors rest
    { t with success := t.success + 1, totalChunks := t.totalChunks + c }
  | .skipped :: rest =>
    let t := runTally skipErrors rest
    { t with skipped := t.skipped + 1 }
  | .error :: rest =>
    if skipErrors then
      let t := runTally skipErrors rest
      { t with failed := t.failed + 1 }
    else ⟨0, 1, 0, 0⟩

/-- Python `str.lower()` (strings in the loader layer are modelled as their
character lists so that the embedding evaluates on concrete inputs). -/
def pyLower (s : List Char) : List Char := s.map Char.toLower

/-- Python `str.endswith(t)`. -/
def pyEndsWith (s t : List Char) : Bool := t.isSuffixOf s

/-- Python `str.split(sep)` for a single-character separator: the list of
separator-free groups; split of the empty string is `[""]`, and a trailing
separator yields a trailing empty group, as in Python. -/
def pySplit (sep : Char) : List Char → List (List Char)
  | [] => [[]]
  | c :: rest =>
    match pySplit sep rest with
    | [] => [[c]]
    | g :: gs => if c = sep then [] :: g :: gs else (c :: g) :: gs

/-- A registered document loader as `LoaderRegistry` sees it:
`type(loader).__name__`, `loader.extensions`, `loader.priority`. -/
structure Loader where
  typeName : List Char
  extensions : List (List Char)
  priority : Int
deriving DecidableEq, Repr

/-- `DocumentLoader.can_handle`: the lowercased filename ends with one of the
loader's (lowercased) extensions. -/
def can_handle (l : Loader) (filename : List Char) : Bool :=
  l.extensions.any (fun ext => pyEndsWith (pyLower filename) (pyLower ext))

/-- The extension computation of `LoaderRegistry.get_loader`:
`"." + filename.lower().split(".")[-1]` when the name contains a dot,
else `""`. -/
def fileExtension (filename : List Char) : List Char :=
  if filename.contains '.' then
    '.' :: (pySplit '.' (pyLower filename)).getLastD []
  else []

/-- The state of a `LoaderRegistry`: the extension-override table
(`STACHE_LOADER_<EXT>` environment entries, a dict with unique keys modelled
as an association list) and the list of registered loaders. -/
structure LoaderRegistry where
  extensionOverrides : List (List Char × List Char)
  loaders : List Loader

/-- The override-resolution loop of `get_loader`: first loader whose type
name matches the override name case-insensitively. -/
def findOverrideLoader (loaders : List Loader) (overrideName : List Char) : Option Loader :=
  loaders.find? (fun l => pyLower l.typeName == pyLower overrideName)

/-- Python's `max(candidates, key=lambda ldr: ldr.priority)`: scan left to
right, replacing the current best only on strictly greater priority (so the
first maximum wins); `none` on an empty list (the code guards this case). -/
def maxByPriority (candidates : List Loader) : Option Loader :=
  match candidates with
  | [] => none
  | l :: ls =>
    some (ls.foldl (fun best cur => if cur.priority > best.priority then cur else best) l)

/-- `LoaderRegistry.get_loader`: if an override is declared for the file's
extension and a loader with that type name exists, return it; otherwise
filter loaders by `can_handle` and return the highest-priority candidate,
or `none` when no loader matches. -/
def get_loader (r : LoaderRegistry) (filename : List Char) : Option Loader :=
  let ext := fileExtension filename
  let normal := maxByPriority (r.loaders.filter (fun l => can_handle l filename))
  match r.extensionOverrides.lookup ext with
  | some overrideName =>
    match findOverrideLoader r.loaders overrideName with
    | some l => some l
    | none => normal
  | none => normal

/-- Loader resolution exactly as the spec sentence states it (comparison
target, written from the spec's words, not from the source): the override
match if present and resolvable, else "the highest-priority loader among
those matching the filename" — picked here as the first candidate whose
priority bounds every candidate's — else none. -/
def get_loader_spec (r : LoaderRegistry) (filename : List Char) : Option Loader :=
  let ext := fileExtension filename
  let candidates := r.loaders.filter (fun l => can_handle l filename)
  let normal := candidates.find? (fun l => candidates.all (fun l2 => l2.priority ≤ l.priority))
  match r.extensionOverrides.lookup ext with
  | some overrideName =>
    match findOverrideLoader r.loaders overrideName with
    | some l => some l
    | none => normal
  | none => normal

/-- All registered loaders carry pairwise-distinct priorities (the claim's
hypothesis). -/
def distinctPriorities (loaders : List Loader) : Prop :=
  loaders.Pairwise (fun a b => a.priority ≠ b.priority)

/-- A priority-0 built-in PDF loader, for the claim's scenario. -/
def pdfBuiltinLoader : Loader := ⟨"BasicPDFLoader".data, [".pdf".data], 0⟩

/-- A priority-10 plugin PDF loader, for the claim's scenario. -/
def pdfPluginLoader : Loader := ⟨"PluginPDFLoader".data, [".pdf".data], 10⟩

/-- Registry with no overrides and both PDF loaders registered. -/
def pdfScenarioRegistry : LoaderRegistry := ⟨[], [pdfBuiltinLoader, pdfPluginLoader]⟩

/-- The validated `transport` field of `StacheConfig`: the field validator
rejects everything outside `{"http", "lambda", "auto"}` (after
lowercasing), so the configuration carries one of these three modes. -/
inductive TransportMode where
  | http
  | lambda
  | auto
deriving DecidableEq, Repr

/-- The value of `StacheConfig.resolved_transport`. -/
inductive ResolvedTransport where
  | http
  | lambda
deriving DecidableEq, Repr

/-- The fields of `StacheConfig` that `resolved_transport` reads:
the validated transport mode and `lambda_function_name`
(`None` when unset). -/
structure StacheConfig where
  transport : TransportMode
  lambda_function_name : Option String
deriving DecidableEq, Repr

/-- Python truthiness of an optional string: `None` and `""` are falsy. -/
def truthyOptStr : Option String → Bool
  | none => false
  | some s => !s.isEmpty

/-- `StacheConfig.resolved_transport`: a non-`auto` mode is returned as-is;
under `auto`, `lambda` when `self.lambda_function_name` is truthy, else
`http`. -/
def resolved_transport (c : StacheConfig) : ResolvedTransport :=
  match c.transport with
  | .http => .http
  | .lambda => .lambda
  | .auto => if truthyOptStr c.lambda_function_name then .lambda else .http

/-- The client-side cap of `StacheAPI.ingest_text`: `10 * 1024 * 1024`. -/
def MAX_INGEST_TEXT_BYTES : Nat := 10 * 1024 * 1024

/-- The `/api/capture` request `StacheAPI.ingest_text` hands to
`self._client.post` when validation passes: the text (carried here as its
UTF-8 byte sequence), the chunking strategy, and the optional fields that
are attached only when truthy. -/
structure IngestRequest where
  path : String
  textBytes : List Nat
  chunking_strategy : String
  ns : Option String
  metadata : Option (List (String × String))
  prepend_metadata : Option (List String)
deriving DecidableEq, Repr

/-- `StacheAPI.ingest_text`: texts whose UTF-8 encoding exceeds
`MAX_INGEST_TEXT_BYTES` raise a local `ValueError` before the request dict
is even built (`.error`); otherwise the shaped request is passed to the
transport's `post` (`.ok`). The text is modelled by its UTF-8 byte
sequence, so `len(text.encode("utf-8"))` is `textBytes.length`; optional
fields are included only when truthy, as in the source. -/
def ingest_text (textBytes : List Nat) (ns : Option String)
    (metadata : Option (List (String × String))) (chunking_strategy : String)
    (prepend_metadata : Option (List String)) : Except String IngestRequest :=
  if textBytes.length > MAX_INGEST_TEXT_BYTES then
    .error "Text exceeds maximum size of 10MB"
  else
    .ok
      { path := "/api/capture"
        textBytes := textBytes
        chunking_strategy := chunking_strategy
        ns := if truthyOptStr ns then ns else none
        metadata := match metadata with
          | some m => if m.isEmpty then none else some m
          | none => none
        prepend_metadata := match prepend_metadata with
          | some p => if p.isEmpty then none else some p
          | none => none }

/-- `mcp/tools.MAX_ID_LENGTH`. -/
def MAX_ID_LENGTH : Nat := 200

/-- Membership in the character class of `mcp/tools.ID_PATTERN`:
alphanumerics, underscore, slash, hyphen. -/
def ID_CHAR_OK (c : Char) : Bool :=
  ('a' ≤ c && c ≤ 'z') || ('A' ≤ c && c ≤ 'Z') || ('0' ≤ c && c ≤ '9') ||
    c == '_' || c == '/' || c == '-'

/-- Python's `ID_PATTERN.match(s)` for the anchored pattern of one or more
allowed characters (caret, the class above with a plus, dollar), as a
Boolean: one or more allowed characters spanning the string — except
that Python's `$` (without `re.MULTILINE`) also matches immediately before
a newline at the end of the string, so an all-allowed nonempty prefix
followed by one final `'\n'` also matches. -/
def ID_PATTERN_matches (s : List Char) : Bool :=
  (!s.isEmpty && s.all ID_CHAR_OK) ||
    (match s.getLast? with
     | some c =>
       c == '\n' && (!s.dropLast.isEmpty && s.dropLast.all ID_CHAR_OK)
     | none => false)

/-- The reasons `mcp/tools.validate_id` can reject an identifier
(the formatted message strings are elided). -/
inductive IdError where
  | empty
  | tooLong
  | invalidChars
deriving DecidableEq, Repr

/-- `mcp/tools.validate_id`: empty ids, ids longer than `MAX_ID_LENGTH`
characters, and ids not matching `ID_PATTERN` are rejected with the
corresponding message; `none` means valid (the MCP tool then proceeds to
the network call). Identifiers are modelled as their character lists
(`len` on a Python `str` counts characters). -/
def validate_id (idValue : List Char) : Option IdError :=
  if idValue.isEmpty then some .empty
  else if idValue.length > MAX_ID_LENGTH then some .tooLong
  else if !(ID_PATTERN_matches idValue) then some .invalidChars
  else none

/-- C1: For every failure raised by a transport verb call (the four typed
Stache exceptions), retryability is a pure function of the failure's type
and, for generic API failures, its status code: both transports' retry
predicates agree, return true iff the failure is a connection failure or a
generic API failure whose status is 429 or in [500, 599], and return false
for every authentication and not-found failure. -/
theorem C1_retryability_pure_function :
    ∀ e : ClientExc, isStacheFailure e = true →
      is_retryable_http e = is_retryable_lambda e ∧
      (is_retryable_http e = true ↔
        e = ClientExc.stacheConnection ∨
          ∃ c, e = ClientExc.stacheAPI c ∧ (c = 429 ∨ (500 ≤ c ∧ c ≤ 599))) ∧
      ((e = ClientExc.stacheAuth ∨ e = ClientExc.stacheNotFound) →
        is_retryable_http e = false ∧ is_retryable_lambda e = false) := by
  intro e he
  cases e <;>
    simp_all [isStacheFailure, is_retryable_http, is_retryable_lambda,
      is_retryable_connection_error, is_retryable_api_error, is_retryable_status_code]
  omega

/-- Witness for C1 at the concrete failure `StacheAPIError(status=503)`. -/
theorem C1_retryability_pure_function_witness :
    is_retryable_http (ClientExc.stacheAPI 503) = is_retryable_lambda (ClientExc.stacheAPI 503) ∧
    (is_retryable_http (ClientExc.stacheAPI 503) = true ↔
      ClientExc.stacheAPI 503 = ClientExc.stacheConnection ∨
        ∃ c, ClientExc.stacheAPI 503 = ClientExc.stacheAPI c ∧
          (c = 429 ∨ (500 ≤ c ∧ c ≤ 599))) ∧
    ((ClientExc.stacheAPI 503 = ClientExc.stacheAuth ∨
        ClientExc.stacheAPI 503 = ClientExc.stacheNotFound) →
      is_retryable_http (ClientExc.stacheAPI 503) = false ∧
        is_retryable_lambda (ClientExc.stacheAPI 503) = false) :=
  C1_retryability_pure_function (ClientExc.stacheAPI 503) (by decide)

/-- C4 counterexample: an SDK invocation failure with code
`ServiceUnavailableException` is raised by `_invoke` as a connection error
(the final `else` branch), not as a generic API error with synthetic status
503 as the claim states. -/
theorem C4_counterexample :
    classify_client_error "ServiceUnavailableException" = ClientExc.stacheConnection ∧
    classify_client_error "ServiceUnavailableException" ≠ ClientExc.stacheAPI 503 := by
  constructor
  · rfl
  · intro h
    rw [show classify_client_error "ServiceUnavailableException" =
        ClientExc.stacheConnection from rfl] at h
    exact ClientExc.noConfusion h

/-- C4 amended: `_invoke` classifies SDK-level invocation failures by error
code: target-not-found → connection error; access-denied → authentication
error; `TooManyRequestsException` and `ServiceException` → generic API
error with synthetic status 503 (retryable); every other code — including
`ServiceUnavailableException` — falls to the generic connection-error
branch; hence every class except access-denied is retryable. -/
theorem C4_invoke_error_classification :
    ∀ code : String,
      (code = "ResourceNotFoundException" →
        classify_client_error code = ClientExc.stacheConnection) ∧
      (code = "AccessDeniedException" →
        classify_client_error code = ClientExc.stacheAuth) ∧
      (code = "TooManyRequestsException" ∨ code = "ServiceException" →
        classify_client_error code = ClientExc.stacheAPI 503 ∧
          is_retryable_lambda (classify_client_error code) = true) ∧
      (code ≠ "ResourceNotFoundException" → code ≠ "AccessDeniedException" →
        code ≠ "TooManyRequestsException" → code ≠ "ServiceException" →
        classify_client_error code = ClientExc.stacheConnection) ∧
      (classify_client_error code = ClientExc.stacheAuth ∨
        is_retryable_lambda (classify_client_error code) = true) := by
  intro code
  unfold classify_client_error
  refine ⟨?_, ?_, ?_, ?_, ?_⟩
  · intro h; simp [h]
  · intro h; simp [h]
  · intro h
    rcases h with h | h <;> simp [h] <;> decide
  · intro h1 h2 h3 h4; simp [h1, h2, h3, h4]
  · split_ifs <;> simp <;> decide

/-- Witness for C4's amended theorem at the code `ResourceNotFoundException`. -/
theorem C4_invoke_error_classification_witness :
    classify_client_error "ResourceNotFoundException" = ClientExc.stacheConnection :=
  (C4_invoke_error_classification "ResourceNotFoundException").1 rfl

/-- C7: `resolved_transport` yields the lambda transport iff the mode is the
explicit `lambda` mode, or the mode is `auto` and `lambda_function_name` is
set (truthy: present and nonempty); in every other case it yields `http`.
Being a Lean function of the configuration record, it is a pure function of
the configuration's fields. -/
theorem C7_resolved_transport_iff :
    ∀ c : StacheConfig,
      (resolved_transport c = ResolvedTransport.lambda ↔
        c.transport = TransportMode.lambda ∨
          (c.transport = TransportMode.auto ∧
            truthyOptStr c.lambda_function_name = true)) ∧
      (resolved_transport c = ResolvedTransport.http ↔
        ¬(c.transport = TransportMode.lambda ∨
          (c.transport = TransportMode.auto ∧
            truthyOptStr c.lambda_function_name = true))) := by
  intro c
  obtain ⟨t, f⟩ := c
  cases t <;> cases h : truthyOptStr f <;> simp [resolved_transport, h]

/-- C8: a text whose UTF-8 encoding exceeds `MAX_INGEST_TEXT_BYTES` makes
`ingest_text` raise the local `ValueError` — no `/api/capture` request
value is ever produced, so the transport is never invoked. -/
theorem C8_ingest_text_size_cap :
    ∀ (textBytes : List Nat) (ns : Option String)
      (metadata : Option (List (String × String))) (chunking_strategy : String)
      (prepend_metadata : Option (List String)),
      textBytes.length > MAX_INGEST_TEXT_BYTES →
      ingest_text textBytes ns metadata chunking_strategy prepend_metadata =
        Except.error "Text exceeds maximum size of 10MB" := by
  intro tb ns md cs pm h
  simp [ingest_text, h]

/-- Witness for C8 at a text of exactly 10 MiB + 1 byte. -/
theorem C8_ingest_text_size_cap_witness :
    (List.replicate (MAX_INGEST_TEXT_BYTES + 1) 97).length > MAX_INGEST_TEXT_BYTES ∧
    ingest_text (List.replicate (MAX_INGEST_TEXT_BYTES + 1) 97) none none "recursive" none =
      Except.error "Text exceeds maximum size of 10MB" := by
  have h : (List.replicate (MAX_INGEST_TEXT_BYTES + 1) 97).length > MAX_INGEST_TEXT_BYTES := by
    simp
  exact ⟨h, C8_ingest_text_size_cap _ none none "recursive" none h⟩

/-- C9 (code bug): the identifier consisting of `a` followed by a newline is
nonempty, within the length cap, and contains a character outside the
allow-list, yet `validate_id` accepts it — Python's `$` anchor also matches
immediately before a single trailing newline, so the MCP tool proceeds to
the network call, contradicting the validator's own error message. -/
theorem C9_trailing_newline_passes_validation :
    validate_id ['a', '\n'] = none ∧
    ('\n' ∈ ['a', '\n'] ∧ ID_CHAR_OK '\n' = false) ∧
    (['a', '\n'] : List Char).isEmpty = false ∧
    (['a', '\n'] : List Char).length ≤ MAX_ID_LENGTH := by
  decide

/-- C2: both transports map an integer status code `c` to the same outcome:
401 or 403 → authentication error, 404 → not-found error, any other code
≥ 400 → generic API error carrying `c`, and below 400 no error is raised
and the parsed payload is returned as-is. -/
theorem C2_status_to_error_mapping :
    ∀ (c : Int) (v : JVal) (prev : Option JVal),
      ((http_handle_response ⟨c, some v⟩).2).kind = claimedStatusKind c ∧
      ((lambda_handle_response prev ⟨some c, .jsonStr v⟩).2).kind = claimedStatusKind c ∧
      (c < 400 →
        (http_handle_response ⟨c, some v⟩).2 = RespOutcome.success v ∧
        (lambda_handle_response prev ⟨some c, .jsonStr v⟩).2 = RespOutcome.success v) := by
  intro c v prev
  have hbody : (lambda_parse_body prev (.jsonStr v)).2 = v := by
    cases v <;> rfl
  simp only [http_handle_response, lambda_handle_response, http_response_outcome,
    lambda_response_outcome, raise_for_status, claimedStatusKind, Option.getD_some, hbody]
  split_ifs <;>
    simp_all [RespOutcome.kind, outcomeOfKind] <;> omega

/-- Witness for C2's success clause at status 200. -/
theorem C2_status_to_error_mapping_witness :
    ((http_handle_response ⟨200, some (JVal.jstr "ok")⟩).2).kind = claimedStatusKind 200 ∧
    ((lambda_handle_response none ⟨some 200, .jsonStr (JVal.jstr "ok")⟩).2).kind =
      claimedStatusKind 200 ∧
    ((http_handle_response ⟨200, some (JVal.jstr "ok")⟩).2 =
        RespOutcome.success (JVal.jstr "ok") ∧
      (lambda_handle_response none ⟨some 200, .jsonStr (JVal.jstr "ok")⟩).2 =
        RespOutcome.success (JVal.jstr "ok")) :=
  ⟨(C2_status_to_error_mapping 200 (JVal.jstr "ok") none).1,
    (C2_status_to_error_mapping 200 (JVal.jstr "ok") none).2.1,
    (C2_status_to_error_mapping 200 (JVal.jstr "ok") none).2.2 (by norm_num)⟩

/-- The wrapped call runs some final attempt `k ≤ remaining + 1` past
`attempt`, returns that attempt's own outcome unchanged, and every earlier
attempt failed retryably. -/
theorem retryExec_runs_final_attempt {ε α : Type} (isR : ε → Bool) (f : Nat → Except ε α) :
    ∀ (remaining attempt : Nat),
      ∃ k, attempt ≤ k ∧ k ≤ attempt + remaining ∧
        retryExec isR f attempt remaining = f k ∧
        ∀ j, attempt ≤ j → j < k → ∃ e, f j = .error e ∧ isR e = true := by
  intro remaining
  induction remaining with
  | zero =>
    intro attempt
    exact ⟨attempt, le_refl _, by omega, rfl, fun j h1 h2 => by omega⟩
  | succ r ih =>
    intro attempt
    unfold retryExec
    cases hf : f attempt with
    | ok a =>
      exact ⟨attempt, le_refl _, by omega, by rw [hf], fun j h1 h2 => by omega⟩
    | error e =>
      by_cases hr : isR e = true
      · obtain ⟨k, hk1, hk2, hk3, hk4⟩ := ih (attempt + 1)
        refine ⟨k, by omega, by omega, ?_, ?_⟩
        · show (if isR e = true then retryExec isR f (attempt + 1) r
              else Except.error e) = f k
          rw [if_pos hr]
          exact hk3
        · intro j h1 h2
          rcases Nat.eq_or_lt_of_le h1 with h | h
          · exact ⟨e, h ▸ hf, hr⟩
          · exact hk4 j h h2
      · refine ⟨attempt, le_refl _, by omega, ?_, fun j h1 h2 => by omega⟩
        rw [hf]
        simp [hr]

/-- C3: the shared retry policy makes at most `RETRY_MAX_ATTEMPTS = 3`
attempts; the result of the wrapped call is always the outcome of the final
attempt made (so after the final attempt there is no further retry and the
last failure is raised, never swallowed), and every attempt before the
final one failed with a retryable failure; the backoff for the sleep after
attempt `n` is `min(initial * 2^(n-1) + jitter, max)` with initial 1, so
the first sleep starts at 1 time-unit before jitter, and every sleep is
capped at `WAIT_MAX = 10` for any jitter draw in `[0, WAIT_JITTER]`. -/
theorem C3_retry_policy :
    (∀ (ε α : Type) (isR : ε → Bool) (f : Nat → Except ε α),
      ∃ k, 1 ≤ k ∧ k ≤ RETRY_MAX_ATTEMPTS ∧ retryCall isR f = f k ∧
        ∀ j, 1 ≤ j → j < k → ∃ e, f j = .error e ∧ isR e = true) ∧
    wait_exponential_jitter 1 0 = WAIT_INITIAL ∧
    (∀ (n : Nat) (j : ℚ), 0 ≤ j → j ≤ WAIT_JITTER →
      0 ≤ wait_exponential_jitter n j ∧ wait_exponential_jitter n j ≤ WAIT_MAX) := by
  refine ⟨?_, ?_, ?_⟩
  · intro ε α isR f
    obtain ⟨k, h1, h2, h3, h4⟩ := retryExec_runs_final_attempt isR f (RETRY_MAX_ATTEMPTS - 1) 1
    exact ⟨k, h1, by simpa [RETRY_MAX_ATTEMPTS] using h2, h3, h4⟩
  · norm_num [wait_exponential_jitter, WAIT_INITIAL, WAIT_MAX]
  · intro n j _ _
    refine ⟨le_max_left _ _, ?_⟩
    exact max_le (by norm_num [WAIT_MAX]) (min_le_right _ _)

/-- Witness for C3 at a concrete retry run and a concrete jitter draw. -/
theorem C3_retry_policy_witness :
    (0 : ℚ) ≤ 1 ∧ (1 : ℚ) ≤ WAIT_JITTER ∧
    (0 ≤ wait_exponential_jitter 2 1 ∧ wait_exponential_jitter 2 1 ≤ WAIT_MAX) :=
  ⟨by norm_num, by norm_num [WAIT_JITTER],
    C3_retry_policy.2.2 2 1 (by norm_num) (by norm_num [WAIT_JITTER])⟩

/-- C10 counterexample: a Lambda response whose body is valid JSON but not an
object (here the JSON array `[]`) leaves `_last_request_id` at its previous
value instead of resetting it to `None`: with a previous id `req-1` the
field stays `req-1`, while the same response handled with no previous id
yields `None`. -/
theorem C10_counterexample :
    (lambda_handle_response (some (JVal.jstr "req-1"))
        ⟨some 200, .jsonStr (JVal.jarr [])⟩).1 = some (JVal.jstr "req-1") ∧
    (lambda_handle_response none ⟨some 200, .jsonStr (JVal.jarr [])⟩).1 = none := by
  exact ⟨rfl, rfl⟩

/-- C10 amended: after any verb call that receives a response envelope
(whether it returns a payload or raises a status-mapped error — the new id
is independent of the status code), the HTTP transport's
`last_request_id` equals the `request_id` field of the response's JSON body
when that body is a JSON object, and is `None` otherwise, never retaining
an earlier value; the Lambda transport behaves the same except that a body
parsing to a JSON value that is not an object skips the assignment and
retains the previous value. -/
theorem C10_last_request_id :
    ∀ (prev : Option JVal) (p : LambdaPayload) (r : HttpResponse),
      (http_handle_response r).1 =
        (match r.jsonBody with
         | some (JVal.jobj fields) => dictGet fields "request_id"
         | _ => none) ∧
      (lambda_handle_response prev p).1 =
        (match p.body with
         | .jsonStr (JVal.jobj fields) => dictGet fields "request_id"
         | .jsonStr _ => prev
         | .absent => none
         | .emptyStr => none
         | .badStr => none
         | .nonString => none) := by
  intro prev p r
  constructor
  · show http_extract_request_id r = _
    unfold http_extract_request_id
    rcases r with ⟨c, b⟩
    match b with
    | none => rfl
    | some JVal.jnull => rfl
    | some (JVal.jbool _) => rfl
    | some (JVal.jnum _) => rfl
    | some (JVal.jstr _) => rfl
    | some (JVal.jarr _) => rfl
    | some (JVal.jobj _) => rfl
  · show (lambda_parse_body prev p.body).1 = _
    match p.body with
    | .absent => simp [lambda_parse_body, dictGet]
    | .emptyStr => simp [lambda_parse_body, dictGet]
    | .badStr => rfl
    | .nonString => rfl
    | .jsonStr JVal.jnull => rfl
    | .jsonStr (JVal.jbool _) => rfl
    | .jsonStr (JVal.jnum _) => rfl
    | .jsonStr (JVal.jstr _) => rfl
    | .jsonStr (JVal.jarr _) => rfl
    | .jsonStr (JVal.jobj _) => rfl

/-- When every file is attempted (`--skip-errors`), the tallies are
invariant under reordering of the per-file outcomes. -/
theorem runTally_perm_invariant :
    ∀ {l₁ l₂ : List FileOutcome}, l₁.Perm l₂ → runTally true l₁ = runTally true l₂ := by
  intro l₁ l₂ h
  induction h with
  | nil => rfl
  | cons x _ ih => cases x <;> simp [runTally, ih]
  | swap x y l =>
    cases x <;> cases y <;> simp [runTally, RunTally.mk.injEq] <;> omega
  | trans _ _ ih1 ih2 => exact ih1.trans ih2

/-- When no outcome is an error the abort branch is never taken, so the
tallies do not depend on the `--skip-errors` flag. -/
theorem runTally_no_error_flag_irrelevant :
    ∀ (l : List FileOutcome), FileOutcome.error ∉ l →
      runTally false l = runTally true l := by
  intro l
  induction l with
  | nil => intro _; rfl
  | cons hd tl ih =>
    intro h
    have htl : FileOutcome.error ∉ tl := fun hm => h (List.mem_cons_of_mem _ hm)
    have hhd : hd ≠ FileOutcome.error := fun he => h (he ▸ List.mem_cons_self _ _)
    cases hd with
    | success c => simp [runTally, ih htl]
    | skipped => simp [runTally, ih htl]
    | error => exact absurd rfl hhd

/-- C5 counterexample: the outcome list `[success 1, error]` and its
permutation `[error, success 1]` — a sequential run versus a possible
parallel completion order — yield different aggregate tallies under the
default abort-on-first-error policy: the first-error abort cancels the
remaining work, so the success is never counted. -/
theorem C5_counterexample :
    ([FileOutcome.success 1, FileOutcome.error] : List FileOutcome).Perm
        [FileOutcome.error, FileOutcome.success 1] ∧
    runTally false [FileOutcome.success 1, FileOutcome.error] ≠
      runTally false [FileOutcome.error, FileOutcome.success 1] :=
  ⟨List.Perm.swap _ _ _, by decide⟩

/-- C5 amended: for every file set and fixed assignment of deterministic
per-file outcomes, a run with worker count 1 and a run with any worker
count greater than 1 — which differ exactly in the order in which the
per-file outcomes reach the aggregator — produce identical aggregate
success / failed / skipped counts and total chunks, provided every file is
attempted: when `--skip-errors` is set, or when no per-file outcome is an
error (with the default abort-on-first-error policy the counts can depend
on completion order, as the counterexample shows). -/
theorem C5_parallel_counts_deterministic :
    ∀ (skipErrors : Bool) (l₁ l₂ : List FileOutcome), l₁.Perm l₂ →
      skipErrors = true ∨ FileOutcome.error ∉ l₁ →
      runTally skipErrors l₁ = runTally skipErrors l₂ := by
  intro skipErrors l₁ l₂ hperm hcase
  rcases hcase with h | h
  · subst h
    exact runTally_perm_invariant hperm
  · cases skipErrors with
    | true => exact runTally_perm_invariant hperm
    | false =>
      have h₂ : FileOutcome.error ∉ l₂ := fun hm => h (hperm.symm.subset hm)
      rw [runTally_no_error_flag_irrelevant l₁ h,
        runTally_no_error_flag_irrelevant l₂ h₂]
      exact runTally_perm_invariant hperm

/-- Witness for C5's amended theorem at a concrete permuted outcome list. -/
theorem C5_parallel_counts_deterministic_witness :
    ([FileOutcome.error, FileOutcome.skipped] : List FileOutcome).Perm
        [FileOutcome.skipped, FileOutcome.error] ∧
    runTally true [FileOutcome.error, FileOutcome.skipped] =
      runTally true [FileOutcome.skipped, FileOutcome.error] :=
  ⟨List.Perm.swap _ _ _,
    C5_parallel_counts_deterministic true _ _ (List.Perm.swap _ _ _) (Or.inl rfl)⟩

/-- The Python `max` scan returns the seed or a list element, its priority
bounds the seed's, and it bounds every element's priority. -/
theorem foldl_best_spec :
    ∀ (ls : List Loader) (seed : Loader),
      (ls.foldl (fun best cur => if cur.priority > best.priority then cur else best) seed
          = seed ∨
        ls.foldl (fun best cur => if cur.priority > best.priority then cur else best) seed
          ∈ ls) ∧
      seed.priority ≤
        (ls.foldl (fun best cur => if cur.priority > best.priority then cur else best)
          seed).priority ∧
      ∀ x ∈ ls, x.priority ≤
        (ls.foldl (fun best cur => if cur.priority > best.priority then cur else best)
          seed).priority := by
  intro ls
  induction ls with
  | nil => intro seed; exact ⟨Or.inl rfl, le_refl _, by simp⟩
  | cons hd tl ih =>
    intro seed
    simp only [List.foldl_cons]
    obtain ⟨hmem, hge, hall⟩ := ih (if hd.priority > seed.priority then hd else seed)
    have hseed_le : seed.priority ≤
        (if hd.priority > seed.priority then hd else seed).priority := by
      split <;> omega
    have hhd_le : hd.priority ≤
        (if hd.priority > seed.priority then hd else seed).priority := by
      split <;> omega
    refine ⟨?_, le_trans hseed_le hge, ?_⟩
    · rcases hmem with h | h
      · rw [h]
        split
        · exact Or.inr (List.mem_cons_self _ _)
        · exact Or.inl rfl
      · exact Or.inr (List.mem_cons_of_mem _ h)
    · intro x hx
      rcases List.mem_cons.mp hx with h | h
      · subst h
        exact le_trans hhd_le hge
      · exact hall x h

/-- `find?` returns the unique element satisfying its predicate. -/
theorem find?_of_unique_sat {p : Loader → Bool} :
    ∀ (c : List Loader) (m : Loader), m ∈ c → p m = true →
      (∀ x ∈ c, p x = true → x = m) → c.find? p = some m := by
  intro c
  induction c with
  | nil => intro m hm _ _; simp at hm
  | cons hd tl ih =>
    intro m hm hp huniq
    by_cases hhd : p hd = true
    · have heq : hd = m := huniq hd (List.mem_cons_self _ _) hhd
      rw [List.find?_cons_of_pos _ hhd, heq]
    · have hm' : m ∈ tl := by
        rcases List.mem_cons.mp hm with h | h
        · exact absurd (h ▸ hp) hhd
        · exact h
      rw [List.find?_cons_of_neg _ (by simpa using hhd)]
      exact ih m hm' hp (fun x hx hpx => huniq x (List.mem_cons_of_mem _ hx) hpx)

/-- Pairwise-distinct priorities make a loader determined by its priority. -/
theorem pairwise_distinct_unique :
    ∀ (c : List Loader), c.Pairwise (fun a b => a.priority ≠ b.priority) →
      ∀ x ∈ c, ∀ y ∈ c, x.priority = y.priority → x = y := by
  intro c hc x hx y hy hxy
  by_contra hne
  exact hc.forall (fun {a b} h => h.symm) hx hy hne hxy

/-- Under pairwise-distinct priorities, the Python `max` scan over the
candidate list agrees with "the candidate whose priority bounds every
candidate's". -/
theorem maxByPriority_eq_spec_find :
    ∀ (c : List Loader), c.Pairwise (fun a b => a.priority ≠ b.priority) →
      maxByPriority c = c.find? (fun l => c.all (fun l2 => l2.priority ≤ l.priority)) := by
  intro c hc
  match c with
  | [] => rfl
  | l :: ls =>
    obtain ⟨hmem, hge, hall⟩ := foldl_best_spec ls l
    have hmem' :
        ls.foldl (fun best cur => if cur.priority > best.priority then cur else best) l
          ∈ l :: ls := by
      rcases hmem with h | h
      · rw [h]; exact List.mem_cons_self _ _
      · exact List.mem_cons_of_mem _ h
    have hbound : ∀ x ∈ l :: ls, x.priority ≤
        (ls.foldl (fun best cur => if cur.priority > best.priority then cur else best)
          l).priority := by
      intro x hx
      rcases List.mem_cons.mp hx with h | h
      · rw [h]; exact hge
      · exact hall x h
    refine (find?_of_unique_sat (l :: ls) _ hmem' ?_ ?_).symm
    · simp only [List.all_eq_true, decide_eq_true_eq]
      exact hbound
    · intro x hx hpx
      simp only [List.all_eq_true, decide_eq_true_eq] at hpx
      exact pairwise_distinct_unique _ hc x hx _ hmem'
        (le_antisymm (hbound x hx) (hpx _ hmem'))

/-- C6: with a fixed override table and registered loaders of pairwise
distinct priorities, `get_loader` is deterministic and resolves exactly as
the spec states: the case-insensitive override match when an override entry
exists for the file's extension and resolves, else the highest-priority
loader among those matching the filename, else none; in particular, with
no override and a priority-0 and a priority-10 PDF loader registered,
`get_loader "report.PDF"` returns the priority-10 loader. -/
theorem C6_get_loader_deterministic :
    (∀ (r : LoaderRegistry) (filename : List Char),
      distinctPriorities r.loaders →
      get_loader r filename = get_loader_spec r filename) ∧
    get_loader pdfScenarioRegistry "report.PDF".data = some pdfPluginLoader := by
  constructor
  · intro r filename hdist
    have hsub : (r.loaders.filter (fun l => can_handle l filename)).Pairwise
        (fun a b => a.priority ≠ b.priority) :=
      List.Pairwise.sublist (List.filter_sublist _) hdist
    simp only [get_loader, get_loader_spec]
    rw [maxByPriority_eq_spec_find _ hsub]
  · decide

/-- Witness for C6 at the concrete two-loader PDF registry. -/
theorem C6_get_loader_deterministic_witness :
    distinctPriorities pdfScenarioRegistry.loaders ∧
    get_loader pdfScenarioRegistry "notes.txt".data =
      get_loader_spec pdfScenarioRegistry "notes.txt".data := by
  have h : distinctPriorities pdfScenarioRegistry.loaders := by
    unfold distinctPriorities pdfScenarioRegistry pdfBuiltinLoader pdfPluginLoader
    decide
  exact ⟨h, C6_get_loader_deterministic.1 _ _ h⟩

end Stache
